import Mathlib

/-!
Verification of the rairplay media-transport core.

Part 1 models the stream-negotiation data model of
`src/airplay/src/rtsp/dto.rs`: property-list values, the custom
`StreamRequest` deserializer, the serde-derived decoders for the
request structs, the untagged `SetupRequest` decoder, the `Teardown`
decoder, and the `StreamResponse` serializer.

Part 2 models the packet processors of
`src/rairplay/src/streaming/processing.rs` as step functions over the
incoming byte stream (one step per frame) together with fuel-indexed
read loops, with the ciphers of `crate::crypto::streaming` abstracted
as in-place (length-preserving) transformations.
-/

namespace Rairplay

/-- Property-list values as used by the `plist` crate: integers (signed),
strings, byte blobs (`Data`), booleans, arrays and dictionaries. A
dictionary is a list of key/value pairs looked up by key. -/
inductive Plist where
  | integer : Int → Plist
  | string : String → Plist
  | data : List Nat → Plist
  | boolean : Bool → Plist
  | array : List Plist → Plist
  | dict : List (String × Plist) → Plist

/-- Dictionary lookup, first match wins (`plist::Dictionary::get`). -/
def plGet (d : List (String × Plist)) (k : String) : Option Plist :=
  match d with
  | [] => none
  | (k1, v) :: rest => if k1 = k then some v else plGet rest k

/-- Rust `plist::Value::as_unsigned_integer`: `Some` exactly for
non-negative integer values. -/
def asUnsignedInteger : Plist → Option Nat
  | .integer i => if 0 ≤ i then some i.toNat else none
  | _ => none

/-- Decode errors of the negotiation model, mirroring the serde error
cases produced in `dto.rs`. -/
inductive DecodeError where
  | notDictionary
  | missingField (name : String)
  | invalidType (name : String)
  | unknownStreamType (value : Nat)
  | noVariantMatched
  deriving DecidableEq, Repr

/-- Decoding of a required unsigned-integer struct field (serde visits the
named key; a missing key is a missing-field error, a non-integer or
out-of-range value a type error). `bound` is the exclusive upper bound of
the Rust integer type (`2^8`, `2^16`, `2^32`, `2^64`). -/
def decodeNatField (d : List (String × Plist)) (name : String) (bound : Int) :
    Except DecodeError Nat :=
  match plGet d name with
  | none => .error (.missingField name)
  | some (.integer i) =>
      if 0 ≤ i ∧ i < bound then .ok i.toNat else .error (.invalidType name)
  | some _ => .error (.invalidType name)

/-- Decoding of an optional unsigned-integer struct field: a missing key
yields `none`, a present key must hold an in-range integer. -/
def decodeOptNatField (d : List (String × Plist)) (name : String) (bound : Int) :
    Except DecodeError (Option Nat) :=
  match plGet d name with
  | none => .ok none
  | some (.integer i) =>
      if 0 ≤ i ∧ i < bound then .ok (some i.toNat) else .error (.invalidType name)
  | some _ => .error (.invalidType name)

/-- Decoding of a required `i64` struct field. -/
def decodeI64Field (d : List (String × Plist)) (name : String) :
    Except DecodeError Int :=
  match plGet d name with
  | none => .error (.missingField name)
  | some (.integer i) =>
      if -(2 ^ 63) ≤ i ∧ i < 2 ^ 63 then .ok i else .error (.invalidType name)
  | some _ => .error (.invalidType name)

/-- Decoding of a required string field. -/
def decodeStringField (d : List (String × Plist)) (name : String) :
    Except DecodeError String :=
  match plGet d name with
  | none => .error (.missingField name)
  | some (.string s) => .ok s
  | some _ => .error (.invalidType name)

/-- Decoding of an optional string field. -/
def decodeOptStringField (d : List (String × Plist)) (name : String) :
    Except DecodeError (Option String) :=
  match plGet d name with
  | none => .ok none
  | some (.string s) => .ok (some s)
  | some _ => .error (.invalidType name)

/-- Decoding of a required byte-blob (`bytes::Bytes`) field. -/
def decodeDataField (d : List (String × Plist)) (name : String) :
    Except DecodeError (List Nat) :=
  match plGet d name with
  | none => .error (.missingField name)
  | some (.data bs) => .ok bs
  | some _ => .error (.invalidType name)

/-- Rust struct `AudioRealtimeRequest` (`dto.rs`). -/
structure AudioRealtimeRequest where
  content_type : Nat
  audio_format : Nat
  samples_per_frame : Nat
  sample_rate : Nat
  min_latency_samples : Nat
  max_latency_samples : Nat
  remote_control_port : Nat
  deriving DecidableEq, Repr

/-- Rust struct `AudioBufferedRequest` (`dto.rs`). -/
structure AudioBufferedRequest where
  content_type : Nat
  audio_format : Nat
  audio_format_index : Option Nat
  samples_per_frame : Nat
  shared_key : List Nat
  client_id : Option String
  deriving DecidableEq, Repr

/-- Rust struct `VideoRequest` (`dto.rs`). -/
structure VideoRequest where
  stream_connection_id : Int
  latency_ms : Nat
  deriving DecidableEq, Repr

/-- Rust enum `StreamRequest` (`dto.rs`). -/
inductive StreamRequest where
  | audioRealtime : AudioRealtimeRequest → StreamRequest
  | audioBuffered : AudioBufferedRequest → StreamRequest
  | video : VideoRequest → StreamRequest
  deriving DecidableEq, Repr

/-- Serde-derived decoder for `AudioRealtimeRequest`: all seven renamed
fields are required. -/
def decodeAudioRealtimeRequest (d : List (String × Plist)) :
    Except DecodeError AudioRealtimeRequest := do
  let ct ← decodeNatField d "ct" (2 ^ 8)
  let af ← decodeNatField d "audioFormat" (2 ^ 32)
  let spf ← decodeNatField d "spf" (2 ^ 32)
  let sr ← decodeNatField d "sr" (2 ^ 32)
  let lmin ← decodeNatField d "latencyMin" (2 ^ 32)
  let lmax ← decodeNatField d "latencyMax" (2 ^ 32)
  let cp ← decodeNatField d "controlPort" (2 ^ 16)
  pure {
    content_type := ct
    audio_format := af
    samples_per_frame := spf
    sample_rate := sr
    min_latency_samples := lmin
    max_latency_samples := lmax
    remote_control_port := cp }

/-- Serde-derived decoder for `AudioBufferedRequest`:
`audioFormatIndex` and `clientID` are optional, the rest required. -/
def decodeAudioBufferedRequest (d : List (String × Plist)) :
    Except DecodeError AudioBufferedRequest := do
  let ct ← decodeNatField d "ct" (2 ^ 8)
  let af ← decodeNatField d "audioFormat" (2 ^ 32)
  let afi ← decodeOptNatField d "audioFormatIndex" (2 ^ 8)
  let spf ← decodeNatField d "spf" (2 ^ 32)
  let shk ← decodeDataField d "shk"
  let cid ← decodeOptStringField d "clientID"
  pure {
    content_type := ct
    audio_format := af
    audio_format_index := afi
    samples_per_frame := spf
    shared_key := shk
    client_id := cid }

/-- Serde-derived decoder for `VideoRequest`. -/
def decodeVideoRequest (d : List (String × Plist)) :
    Except DecodeError VideoRequest := do
  let scid ← decodeI64Field d "streamConnectionID"
  let lat ← decodeNatField d "latencyMs" (2 ^ 32)
  pure { stream_connection_id := scid, latency_ms := lat }

/-- Custom `StreamRequest::deserialize` (`dto.rs` lines 105-151): the value
must be a dictionary, the `type` key must be present and hold an unsigned
integer, then 96/103/110 dispatch to the variant decoders over the same
dictionary, and any other value is an unknown-stream-type error naming it. -/
def decodeStreamRequest (v : Plist) : Except DecodeError StreamRequest :=
  match v with
  | .dict d =>
    match plGet d "type" with
    | none => .error (.missingField "type")
    | some tv =>
      match asUnsignedInteger tv with
      | none => .error (.invalidType "type")
      | some n =>
        if n = 96 then (decodeAudioRealtimeRequest d).map .audioRealtime
        else if n = 103 then (decodeAudioBufferedRequest d).map .audioBuffered
        else if n = 110 then (decodeVideoRequest d).map .video
        else .error (.unknownStreamType n)
  | _ => .error .notDictionary

/-- Rust enum `TimingProtocol` (`dto.rs`), internally tagged by the
`timingProtocol` key. -/
inductive TimingProtocol where
  | ptp : TimingProtocol
  | ntp : (remote_port : Nat) → TimingProtocol
  deriving DecidableEq, Repr

/-- Decoder for the flattened, internally tagged `TimingProtocol`: the
`timingProtocol` key selects `PTP` or `NTP`, and `NTP` requires a
`timingPort`. -/
def decodeTimingProtocol (d : List (String × Plist)) :
    Except DecodeError TimingProtocol :=
  match plGet d "timingProtocol" with
  | none => .error (.missingField "timingProtocol")
  | some (.string s) =>
      if s = "PTP" then .ok .ptp
      else if s = "NTP" then (decodeNatField d "timingPort" (2 ^ 16)).map .ntp
      else .error (.invalidType "timingProtocol")
  | some _ => .error (.invalidType "timingProtocol")

/-- Rust struct `SenderInfo` (`dto.rs`). -/
structure SenderInfo where
  name : String
  model : String
  device_id : String
  mac_addr : String
  os_name : Option String
  os_version : Option String
  os_build_version : Option String
  ekey : List Nat
  eiv : List Nat
  timing_proto : TimingProtocol
  deriving DecidableEq, Repr

/-- Serde-derived decoder for `SenderInfo` (unknown keys are ignored,
`osName`/`osVersion`/`osBuildVersion` are optional, `timingProtocol`
is flattened into the same dictionary). -/
def decodeSenderInfo (v : Plist) : Except DecodeError SenderInfo :=
  match v with
  | .dict d => do
    let nm ← decodeStringField d "name"
    let md ← decodeStringField d "model"
    let did ← decodeStringField d "deviceID"
    let mac ← decodeStringField d "macAddress"
    let osn ← decodeOptStringField d "osName"
    let osv ← decodeOptStringField d "osVersion"
    let osb ← decodeOptStringField d "osBuildVersion"
    let ek ← decodeDataField d "ekey"
    let ei ← decodeDataField d "eiv"
    let tp ← decodeTimingProtocol d
    pure {
      name := nm
      model := md
      device_id := did
      mac_addr := mac
      os_name := osn
      os_version := osv
      os_build_version := osb
      ekey := ek
      eiv := ei
      timing_proto := tp }
  | _ => .error .notDictionary

/-- Rust enum `SetupRequest` (`dto.rs`), an untagged union. -/
inductive SetupRequest where
  | senderInfo : SenderInfo → SetupRequest
  | streams : List StreamRequest → SetupRequest
  deriving DecidableEq, Repr

/-- Decoder for the `Streams` variant shape of `SetupRequest`: a
dictionary whose `streams` key holds an array of decodable
`StreamRequest` entries. -/
def decodeStreamsVariant (v : Plist) : Except DecodeError (List StreamRequest) :=
  match v with
  | .dict d =>
    match plGet d "streams" with
    | none => .error (.missingField "streams")
    | some (.array xs) => xs.mapM decodeStreamRequest
    | some _ => .error (.invalidType "streams")
  | _ => .error .notDictionary

/-- Serde `untagged` decoder for `SetupRequest`: the variants are tried in
declaration order, `SenderInfo` first and `Streams` second; the first one
that decodes wins, and if both fail the whole decode fails. -/
def decodeSetupRequest (v : Plist) : Except DecodeError SetupRequest :=
  match decodeSenderInfo v with
  | .ok s => .ok (.senderInfo s)
  | .error _ =>
    match decodeStreamsVariant v with
    | .ok rs => .ok (.streams rs)
    | .error _ => .error .noVariantMatched

/-- Rust struct `TeardownRequest` (`dto.rs`): the `streamID` field is an
`Option<u64>`, the `type` field a required `u32`. -/
structure TeardownRequest where
  id : Option Nat
  ty : Nat
  deriving DecidableEq, Repr

/-- Rust struct `Teardown` (`dto.rs`): an optional list of
`TeardownRequest` under the `streams` key. -/
structure Teardown where
  requests : Option (List TeardownRequest)
  deriving DecidableEq, Repr

/-- Serde-derived decoder for `TeardownRequest`. -/
def decodeTeardownRequest (v : Plist) : Except DecodeError TeardownRequest :=
  match v with
  | .dict d => do
    let i ← decodeOptNatField d "streamID" (2 ^ 64)
    let t ← decodeNatField d "type" (2 ^ 32)
    pure { id := i, ty := t }
  | _ => .error .notDictionary

/-- Serde-derived decoder for `Teardown`: a missing `streams` key decodes
to `none`, a present key must hold an array of decodable entries. -/
def decodeTeardown (v : Plist) : Except DecodeError Teardown :=
  match v with
  | .dict d =>
    match plGet d "streams" with
    | none => .ok { requests := none }
    | some (.array xs) => (xs.mapM decodeTeardownRequest).map (fun l => { requests := some l })
    | some _ => .error (.invalidType "streams")
  | _ => .error .notDictionary

/-- Rust enum `StreamResponse` (`dto.rs`). -/
inductive StreamResponse where
  | audioRealtime : (id : Nat) → (local_data_port : Nat) → (local_control_port : Nat) → StreamResponse
  | audioBuffered : (id : Nat) → (local_data_port : Nat) → (audio_buffer_size : Nat) → StreamResponse
  | video : (id : Nat) → (local_data_port : Nat) → StreamResponse
  deriving DecidableEq, Repr

/-- The helper struct `AdjTagged` inside `StreamResponse::serialize`
(`dto.rs` lines 236-249): three required fields and two optional ones. -/
structure AdjTagged where
  type_ : Nat
  id : Nat
  local_data_port : Nat
  local_control_port : Option Nat
  audio_buffer_size : Option Nat
  deriving DecidableEq, Repr

/-- Optional-field encoding of the plist serializer: a `Some` value emits
its key, `None` emits nothing (property lists have no null, so the key is
omitted entirely). -/
def optField (name : String) : Option Nat → List (String × Plist)
  | none => []
  | some n => [(name, .integer n)]

/-- Serde serialization of `AdjTagged` through the plist serializer:
fields in declaration order under their renamed keys, optional fields
omitted when `None`. -/
def AdjTagged.encode (a : AdjTagged) : List (String × Plist) :=
  [("type", .integer a.type_), ("streamID", .integer a.id),
   ("dataPort", .integer a.local_data_port)]
  ++ optField "controlPort" a.local_control_port
  ++ optField "audioBufferSize" a.audio_buffer_size

/-- `StreamResponse::serialize` (`dto.rs` lines 231-290): each variant
builds an `AdjTagged` with its tag (96/103/110), its shared fields, the
applicable optional field set and the inapplicable one `None`. -/
def encodeStreamResponse : StreamResponse → List (String × Plist)
  | .audioRealtime id dp cp =>
      AdjTagged.encode {
        type_ := 96, id := id, local_data_port := dp,
        local_control_port := some cp, audio_buffer_size := none }
  | .audioBuffered id dp sz =>
      AdjTagged.encode {
        type_ := 103, id := id, local_data_port := dp,
        audio_buffer_size := some sz, local_control_port := none }
  | .video id dp =>
      AdjTagged.encode {
        type_ := 110, id := id, local_data_port := dp,
        audio_buffer_size := none, local_control_port := none }

/-! Part 2: the packet processors of `processing.rs`. The incoming TCP
byte stream is a `List Nat` of bytes; each `read_*` combinator consumes a
prefix and returns the value read with the remaining stream, or `none` on
end of input (an I/O error in the Rust code). -/

/-- Rust `read_exact` into an `n`-byte buffer. -/
def readExact (n : Nat) (s : List Nat) : Option (List Nat × List Nat) :=
  if n ≤ s.length then some (s.take n, s.drop n) else none

/-- Rust `read_u16` (big endian). -/
def readU16BE : List Nat → Option (Nat × List Nat)
  | b0 :: b1 :: rest => some (b0 * 256 + b1, rest)
  | _ => none

/-- Rust `read_u16_le`. -/
def readU16LE : List Nat → Option (Nat × List Nat)
  | b0 :: b1 :: rest => some (b0 + 256 * b1, rest)
  | _ => none

/-- Rust `read_u32_le`. -/
def readU32LE : List Nat → Option (Nat × List Nat)
  | b0 :: b1 :: b2 :: b3 :: rest =>
      some (b0 + 256 * (b1 + 256 * (b2 + 256 * b3)), rest)
  | _ => none

/-- Rust `read_u64_le`. -/
def readU64LE : List Nat → Option (Nat × List Nat)
  | b0 :: b1 :: b2 :: b3 :: b4 :: b5 :: b6 :: b7 :: rest =>
      some (b0 + 256 * (b1 + 256 * (b2 + 256 * (b3 + 256 * (b4 + 256 *
        (b5 + 256 * (b6 + 256 * b7)))))), rest)
  | _ => none

/-- Outcome of one processor iteration that does not deliver normally:
`ioEof` models an I/O failure of a wire read, `malformed` the explicit
"malformed buffered stream" error, and `crash` an out-of-bounds slice or
underflowing subtraction (a Rust panic). -/
inductive StepErr where
  | ioEof
  | malformed
  | crash
  deriving DecidableEq, Repr

/-- Modelled from the spec: `AudioPacket` (from `playback::audio`, not in
the sources) is an RTP-shaped byte buffer handed to the sink. -/
structure AudioPacket where
  rtp : List Nat
  deriving DecidableEq, Repr

/-- Modelled from the spec: `AudioPacket::TRAILER_LEN` (from
`playback::audio`, not in the sources); the spec fixes the buffered-audio
trailer — tag plus nonce suffix — to 24 bytes (`trailer_len(24)`). The
local constant `TRAILER_LEN` in `audio_buffered_processor` is the
literal 24. `AudioPacket::HEADER_LEN` is likewise not in the sources and
the spec leaves it symbolic, so the processor models below take it as the
parameter `headerLen`. -/
def AudioPacket.TRAILER_LEN : Nat := 24

/-- The `AudioBufferedCipher` capability: `open_in_place` takes a
12-byte nonce, 8-byte AAD, 16-byte tag and the ciphertext region, and
returns the plaintext of the same length, or `none` when the tag does not
authenticate. Length preservation captures that the Rust call decrypts
the borrowed buffer in place. -/
structure AudioBufferedCipher where
  openInPlace : (nonce : List Nat) → (aad : List Nat) → (tag : List Nat) →
    (buf : List Nat) → Option (List Nat)
  length_openInPlace : ∀ n a t b d, openInPlace n a t b = some d →
    d.length = b.length

/-- `AudioBufferedCipher::TAG_LEN` (16) and `NONCE_LEN` (12) with
`AAD_LEN` (8), as read by `audio_buffered_processor`. -/
def AudioBufferedCipher.TAG_LEN : Nat := 16

/-- Nonce length of the buffered-audio cipher. -/
def AudioBufferedCipher.NONCE_LEN : Nat := 12

/-- AAD length of the buffered-audio cipher. -/
def AudioBufferedCipher.AAD_LEN : Nat := 8

/-- One iteration of `audio_buffered_processor` (`processing.rs` lines
42-79): read a big-endian `u16` length, saturating-subtract the length
field size 2, fail the connection if the remainder is shorter than header
plus trailer, read the RTP bytes (length minus the 24-byte trailer), take
the AAD from bytes 4..12 of the RTP buffer, read the 16-byte tag and the
8-byte nonce suffix into a zero-initialised 12-byte nonce, then
authenticated-decrypt the bytes after the header in place: on failure the
packet is dropped and the loop continues, on success the packet is
delivered. Out-of-bounds slice accesses are modelled as `crash`. -/
def audioBufferedStep (headerLen : Nat) (c : AudioBufferedCipher)
    (s : List Nat) : Except StepErr (Option AudioPacket × List Nat) :=
  match readU16BE s with
  | none => .error .ioEof
  | some (pktLen0, s1) =>
    let pktLen := pktLen0 - 2
    if pktLen < headerLen + AudioPacket.TRAILER_LEN then .error .malformed
    else
      if pktLen < 24 then .error .crash
      else
        match readExact (pktLen - 24) s1 with
        | none => .error .ioEof
        | some (rtp, s2) =>
          if rtp.length < 4 + AudioBufferedCipher.AAD_LEN then .error .crash
          else
            let aad := (rtp.drop 4).take AudioBufferedCipher.AAD_LEN
            match readExact AudioBufferedCipher.TAG_LEN s2 with
            | none => .error .ioEof
            | some (tag, s3) =>
              match readExact 8 s3 with
              | none => .error .ioEof
              | some (nonceSuffix, s4) =>
                let nonce := List.replicate 4 0 ++ nonceSuffix
                if rtp.length < headerLen then .error .crash
                else
                  match c.openInPlace nonce aad tag (rtp.drop headerLen) with
                  | none => .ok (none, s4)
                  | some dec =>
                      .ok (some { rtp := rtp.take headerLen ++ dec }, s4)

/-- The read loop of `audio_buffered_processor`, indexed by fuel: it
returns the packets delivered to the sink in order, together with the
error that terminated the loop (`none` while fuel merely ran out). -/
def audioBufferedLoop (headerLen : Nat) (c : AudioBufferedCipher) :
    Nat → List Nat → List AudioPacket × Option StepErr
  | 0, _ => ([], none)
  | fuel + 1, s =>
    match audioBufferedStep headerLen c s with
    | .error e => ([], some e)
    | .ok (none, s1) => audioBufferedLoop headerLen c fuel s1
    | .ok (some p, s1) =>
      let r := audioBufferedLoop headerLen c fuel s1
      (p :: r.1, r.2)

/-- The `AudioRealtimeCipher` capability: `decrypt` rewrites the payload
region in place (so it preserves length) and cannot fail. -/
structure AudioRealtimeCipher where
  decrypt : List Nat → List Nat
  length_decrypt : ∀ b, (decrypt b).length = b.length

/-- One iteration of `audio_realtime_processor` (`processing.rs` lines
96-118) on a received datagram: a datagram shorter than the audio header
is logged and dropped (`none`); otherwise a buffer of the datagram's
length is allocated and filled with the datagram, the bytes after the
header are decrypted in place, and the packet is delivered. -/
def audioRealtimeStep (headerLen : Nat) (c : AudioRealtimeCipher)
    (dgram : List Nat) : Option AudioPacket :=
  if dgram.length < headerLen then none
  else some { rtp := dgram.take headerLen ++ c.decrypt (dgram.drop headerLen) }

/-- The read loop of `audio_realtime_processor` over a sequence of
received datagrams: packets delivered to the sink, in order. -/
def audioRealtimeLoop (headerLen : Nat) (c : AudioRealtimeCipher) :
    List (List Nat) → List AudioPacket
  | [] => []
  | d :: ds =>
    match audioRealtimeStep headerLen c d with
    | none => audioRealtimeLoop headerLen c ds
    | some p => p :: audioRealtimeLoop headerLen c ds

/-- Modelled from the spec: `PacketKind` (from `playback::video`, not in
the sources) — AvcC codec configuration, encrypted payload, or an unknown
code. -/
inductive PacketKind where
  | avcc
  | payload
  | other : Nat → PacketKind
  deriving DecidableEq, Repr

/-- Modelled from the spec: `VideoPacket` (from `playback::video`, not in
the sources) — kind, 64-bit timestamp and payload bytes. -/
structure VideoPacket where
  kind : PacketKind
  timestamp : Nat
  payload : List Nat
  deriving DecidableEq, Repr

/-- The `VideoCipher` capability, carrying mutable cipher state of type
`σ`: `decrypt` rewrites the payload in place (length preserving) and
advances the state. -/
structure VideoCipher (σ : Type) where
  decrypt : σ → List Nat → σ × List Nat
  length_decrypt : ∀ st b, ((decrypt st b).2).length = b.length

/-- The kind-code mapping of `video_processor`: 1 is AvcC, 0 and 4096 are
payload, anything else is `Other`. -/
def packetKindOfCode (code : Nat) : PacketKind :=
  if code = 1 then .avcc
  else if code = 0 ∨ code = 4096 then .payload
  else .other code

/-- One iteration of `video_processor` (`processing.rs` lines 142-174):
read the payload length (`u32` LE), the kind code (`u16` LE), an unused
reserved field (`u16` LE), the timestamp (`u64` LE), discard 112 unknown
bytes, then read the payload; only payload-kind packets are decrypted in
place before delivery. Returns the delivered packet, the advanced cipher
state and the remaining stream. -/
def videoStep {σ : Type} (c : VideoCipher σ) (st : σ) (s : List Nat) :
    Except StepErr (VideoPacket × σ × List Nat) :=
  match readU32LE s with
  | none => .error .ioEof
  | some (payloadLen, s1) =>
    match readU16LE s1 with
    | none => .error .ioEof
    | some (code, s2) =>
      let kind := packetKindOfCode code
      match readU16LE s2 with
      | none => .error .ioEof
      | some (_, s3) =>
        match readU64LE s3 with
        | none => .error .ioEof
        | some (timestamp, s4) =>
          match readExact 112 s4 with
          | none => .error .ioEof
          | some (_, s5) =>
            match readExact payloadLen s5 with
            | none => .error .ioEof
            | some (payload, s6) =>
              if kind = .payload then
                let r := c.decrypt st payload
                .ok ({ kind := kind, timestamp := timestamp, payload := r.2 },
                     r.1, s6)
              else
                .ok ({ kind := kind, timestamp := timestamp, payload := payload },
                     st, s6)

/-! Concrete cipher instances used to evaluate the theorems on closed
inputs. -/

/-- A buffered-audio cipher that always authenticates and decrypts to the
ciphertext itself. -/
def idBufferedCipher : AudioBufferedCipher where
  openInPlace := fun _ _ _ b => some b
  length_openInPlace := by intro n a t b d h; cases h; rfl

/-- A buffered-audio cipher that never authenticates. -/
def failBufferedCipher : AudioBufferedCipher where
  openInPlace := fun _ _ _ _ => none
  length_openInPlace := by intro n a t b d h; cases h

/-- A realtime cipher that decrypts to the ciphertext itself. -/
def idRealtimeCipher : AudioRealtimeCipher where
  decrypt := fun b => b
  length_decrypt := fun _ => rfl

/-- A stateless video cipher that decrypts to the ciphertext itself. -/
def idVideoCipher : VideoCipher Unit where
  decrypt := fun st b => (st, b)
  length_decrypt := fun _ _ => rfl

/-! Concrete and parameterized payloads used to state and evaluate the
decoding theorems. -/

/-- A dictionary payload for an `AudioRealtime` stream request
(`type` 96) carrying all seven fields. -/
def realtimeDict (ct af spf sr lmin lmax cp : Int) : Plist :=
  .dict [("type", .integer 96), ("ct", .integer ct),
         ("audioFormat", .integer af), ("spf", .integer spf),
         ("sr", .integer sr), ("latencyMin", .integer lmin),
         ("latencyMax", .integer lmax), ("controlPort", .integer cp)]

/-- A dictionary payload for an `AudioBuffered` stream request
(`type` 103) carrying all fields, the optional ones included. -/
def bufferedDict (ct af afi spf : Int) (shk : List Nat) (cid : String) : Plist :=
  .dict [("type", .integer 103), ("ct", .integer ct),
         ("audioFormat", .integer af), ("audioFormatIndex", .integer afi),
         ("spf", .integer spf), ("shk", .data shk),
         ("clientID", .string cid)]

/-- A dictionary payload for a `Video` stream request (`type` 110). -/
def videoDict (scid lat : Int) : Plist :=
  .dict [("type", .integer 110), ("streamConnectionID", .integer scid),
         ("latencyMs", .integer lat)]

/-- A payload that satisfies the `SenderInfo` shape and also carries a
perfectly decodable `streams` collection. -/
def bothShapesPayload : Plist :=
  .dict [("name", .string "a"), ("model", .string "b"),
         ("deviceID", .string "c"), ("macAddress", .string "d"),
         ("ekey", .data [1]), ("eiv", .data [2]),
         ("timingProtocol", .string "PTP"),
         ("streams", .array [videoDict 7 100])]

/-- The `SenderInfo` value that `bothShapesPayload` decodes to. -/
def bothShapesSenderInfo : SenderInfo where
  name := "a"
  model := "b"
  device_id := "c"
  mac_addr := "d"
  os_name := none
  os_version := none
  os_build_version := none
  ekey := [1]
  eiv := [2]
  timing_proto := .ptp

/-- A payload carrying only a `streams` collection. -/
def streamsOnlyPayload : Plist :=
  .dict [("streams", .array [videoDict 7 100])]

/-! Helper lemmas. -/

theorem except_bind_ok {ε α β : Type} (a : α) (f : α → Except ε β) :
    (Except.ok a >>= f : Except ε β) = f a := rfl

theorem except_bind_error {ε α β : Type} (e : ε) (f : α → Except ε β) :
    (Except.error e >>= f : Except ε β) = .error e := rfl

/-- C1: `StreamRequest` decoding reads the `type` field of the dictionary
payload as an unsigned integer and dispatches on it — 96 decodes all
seven `AudioRealtime` fields, 103 the `AudioBuffered` fields, 110 the
`Video` fields, each matching the input; a missing `type` key is a
missing-field error, a present but non-(unsigned-)integer `type` an
invalid-type error, and any other integer an unknown-stream-type error
naming the value. -/
theorem c1_streamRequest_decode_dispatch :
    (∀ d, plGet d "type" = none →
      decodeStreamRequest (.dict d) = .error (.missingField "type"))
  ∧ (∀ d tv, plGet d "type" = some tv → asUnsignedInteger tv = none →
      decodeStreamRequest (.dict d) = .error (.invalidType "type"))
  ∧ (∀ d (i : Int), plGet d "type" = some (.integer i) → 0 ≤ i →
      i.toNat ≠ 96 → i.toNat ≠ 103 → i.toNat ≠ 110 →
      decodeStreamRequest (.dict d) = .error (.unknownStreamType i.toNat))
  ∧ (∀ ct af spf sr lmin lmax cp : Int,
      0 ≤ ct → ct < 256 → 0 ≤ af → af < 4294967296 → 0 ≤ spf → spf < 4294967296 →
      0 ≤ sr → sr < 4294967296 → 0 ≤ lmin → lmin < 4294967296 →
      0 ≤ lmax → lmax < 4294967296 → 0 ≤ cp → cp < 65536 →
      decodeStreamRequest (realtimeDict ct af spf sr lmin lmax cp) =
        .ok (.audioRealtime {
          content_type := ct.toNat, audio_format := af.toNat,
          samples_per_frame := spf.toNat, sample_rate := sr.toNat,
          min_latency_samples := lmin.toNat, max_latency_samples := lmax.toNat,
          remote_control_port := cp.toNat }))
  ∧ (∀ (ct af afi spf : Int) (shk : List Nat) (cid : String),
      0 ≤ ct → ct < 256 → 0 ≤ af → af < 4294967296 →
      0 ≤ afi → afi < 256 → 0 ≤ spf → spf < 4294967296 →
      decodeStreamRequest (bufferedDict ct af afi spf shk cid) =
        .ok (.audioBuffered {
          content_type := ct.toNat, audio_format := af.toNat,
          audio_format_index := some afi.toNat,
          samples_per_frame := spf.toNat, shared_key := shk,
          client_id := some cid }))
  ∧ (∀ scid lat : Int,
      -9223372036854775808 ≤ scid → scid < 9223372036854775808 →
      0 ≤ lat → lat < 4294967296 →
      decodeStreamRequest (videoDict scid lat) =
        .ok (.video { stream_connection_id := scid, latency_ms := lat.toNat })) := by
  refine ⟨?_, ?_, ?_, ?_, ?_, ?_⟩
  · intro d h
    simp [decodeStreamRequest, h]
  · intro d tv h1 h2
    simp [decodeStreamRequest, h1, h2]
  · intro d i h1 h0 h96 h103 h110
    simp [decodeStreamRequest, h1, asUnsignedInteger, h0, h96, h103, h110]
  · intro ct af spf sr lmin lmax cp h1 h2 h3 h4 h5 h6 h7 h8 h9 h10 h11 h12 h13 h14
    simp [decodeStreamRequest, realtimeDict, plGet, asUnsignedInteger,
      decodeAudioRealtimeRequest, decodeNatField, except_bind_ok, Except.map,
      h1, h2, h3, h4, h5, h6, h7, h8, h9, h10, h11, h12, h13, h14]
  · intro ct af afi spf shk cid h1 h2 h3 h4 h5 h6 h7 h8
    simp [decodeStreamRequest, bufferedDict, asUnsignedInteger, plGet,
      decodeAudioBufferedRequest, decodeNatField, decodeOptNatField,
      decodeDataField, decodeOptStringField, except_bind_ok, Except.map,
      h1, h2, h3, h4, h5, h6, h7, h8]
  · intro scid lat h1 h2 h3 h4
    simp [decodeStreamRequest, videoDict, asUnsignedInteger, plGet,
      decodeVideoRequest, decodeI64Field, decodeNatField, except_bind_ok,
      Except.map, h1, h2, h3, h4]

/-- Witness for C1: the error case at `type = 999` and the dispatch case
at `type = 96` with concrete field values. -/
theorem c1_streamRequest_decode_dispatch_witness :
    decodeStreamRequest (.dict [("type", .integer 999)]) =
      .error (.unknownStreamType 999)
  ∧ decodeStreamRequest (realtimeDict 1 2 3 4 5 6 7) =
      .ok (.audioRealtime {
        content_type := 1, audio_format := 2, samples_per_frame := 3,
        sample_rate := 4, min_latency_samples := 5, max_latency_samples := 6,
        remote_control_port := 7 }) := by
  constructor
  · exact c1_streamRequest_decode_dispatch.2.2.1 _ 999 rfl (by decide)
      (by decide) (by decide) (by decide)
  · exact c1_streamRequest_decode_dispatch.2.2.2.1 1 2 3 4 5 6 7
      (by decide) (by decide) (by decide) (by decide) (by decide) (by decide)
      (by decide) (by decide) (by decide) (by decide) (by decide) (by decide)
      (by decide) (by decide)

/-- C2: serializing a `StreamResponse` always emits the shared keys
`type`, `streamID` and `dataPort` plus exactly the one applicable
kind-specific key — `controlPort` for `AudioRealtime`, `audioBufferSize`
for `AudioBuffered`, neither for `Video` — and the inapplicable
kind-specific keys are entirely absent from the encoded dictionary.
The last conjunct checks the spec's concrete example
`AudioRealtime { id := 5, local_data_port := 7000,
local_control_port := 7001 }`. -/
theorem c2_streamResponse_encode_keys :
    (∀ id dp cp, encodeStreamResponse (.audioRealtime id dp cp) =
        [("type", .integer 96), ("streamID", .integer id),
         ("dataPort", .integer dp), ("controlPort", .integer cp)]
      ∧ plGet (encodeStreamResponse (.audioRealtime id dp cp)) "audioBufferSize" = none)
  ∧ (∀ id dp sz, encodeStreamResponse (.audioBuffered id dp sz) =
        [("type", .integer 103), ("streamID", .integer id),
         ("dataPort", .integer dp), ("audioBufferSize", .integer sz)]
      ∧ plGet (encodeStreamResponse (.audioBuffered id dp sz)) "controlPort" = none)
  ∧ (∀ id dp, encodeStreamResponse (.video id dp) =
        [("type", .integer 110), ("streamID", .integer id),
         ("dataPort", .integer dp)]
      ∧ plGet (encodeStreamResponse (.video id dp)) "controlPort" = none
      ∧ plGet (encodeStreamResponse (.video id dp)) "audioBufferSize" = none)
  ∧ (plGet (encodeStreamResponse (.audioRealtime 5 7000 7001)) "type" =
        some (.integer 96)
      ∧ plGet (encodeStreamResponse (.audioRealtime 5 7000 7001)) "streamID" =
        some (.integer 5)
      ∧ plGet (encodeStreamResponse (.audioRealtime 5 7000 7001)) "dataPort" =
        some (.integer 7000)
      ∧ plGet (encodeStreamResponse (.audioRealtime 5 7000 7001)) "controlPort" =
        some (.integer 7001)
      ∧ plGet (encodeStreamResponse (.audioRealtime 5 7000 7001)) "audioBufferSize" =
        none) := by
  refine ⟨?_, ?_, ?_, rfl, rfl, rfl, rfl, rfl⟩
  · intro id dp cp
    exact ⟨rfl, by simp [encodeStreamResponse, AdjTagged.encode, optField, plGet]⟩
  · intro id dp sz
    exact ⟨rfl, by simp [encodeStreamResponse, AdjTagged.encode, optField, plGet]⟩
  · intro id dp
    refine ⟨rfl, ?_, ?_⟩ <;>
      simp [encodeStreamResponse, AdjTagged.encode, optField, plGet]

/-- C8 counterexample: a payload that carries a perfectly decodable
`streams` collection and also satisfies the `SenderInfo` shape decodes to
the `SenderInfo` variant, not the `Streams` variant — the untagged decode
tries `SenderInfo` first, it does not probe for the `streams` key. -/
theorem c8_counterexample :
    decodeSetupRequest bothShapesPayload = .ok (.senderInfo bothShapesSenderInfo)
  ∧ decodeStreamsVariant bothShapesPayload =
      .ok [.video { stream_connection_id := 7, latency_ms := 100 }]
  ∧ SetupRequest.senderInfo bothShapesSenderInfo ≠
      .streams [.video { stream_connection_id := 7, latency_ms := 100 }] := by
  refine ⟨rfl, rfl, by simp⟩

/-- C8 (amended): the untagged `SetupRequest` decode tries the
`SenderInfo` shape first and falls back to the `Streams` shape. Hence a
payload satisfying the `SenderInfo` shape decodes to `SenderInfo` (even
when a `streams` collection is present), a payload that does not satisfy
the `SenderInfo` shape but carries a decodable `streams` collection
decodes to `Streams`, and a payload without a `streams` key never
decodes to `Streams`; no explicit discriminator tag is read. -/
theorem c8_setupRequest_untagged_order :
    (∀ v s, decodeSenderInfo v = .ok s →
      decodeSetupRequest v = .ok (.senderInfo s))
  ∧ (∀ v e rs, decodeSenderInfo v = .error e → decodeStreamsVariant v = .ok rs →
      decodeSetupRequest v = .ok (.streams rs))
  ∧ (∀ d rs, plGet d "streams" = none →
      decodeSetupRequest (.dict d) ≠ .ok (.streams rs)) := by
  refine ⟨?_, ?_, ?_⟩
  · intro v s h
    simp [decodeSetupRequest, h]
  · intro v e rs h1 h2
    simp [decodeSetupRequest, h1, h2]
  · intro d rs h
    cases hs : decodeSenderInfo (.dict d) with
    | ok s => simp [decodeSetupRequest, hs]
    | error e => simp [decodeSetupRequest, hs, decodeStreamsVariant, h]

/-- Witness for C8 (amended): a streams-only payload fails the
`SenderInfo` shape and decodes to `Streams`. -/
theorem c8_setupRequest_untagged_order_witness :
    decodeSetupRequest streamsOnlyPayload =
      .ok (.streams [.video { stream_connection_id := 7, latency_ms := 100 }]) :=
  c8_setupRequest_untagged_order.2.1 streamsOnlyPayload (.missingField "name")
    [.video { stream_connection_id := 7, latency_ms := 100 }] rfl rfl

/-- C9 counterexample: a teardown entry whose dictionary has a `type` key
but no `streamID` key decodes successfully with `id = none` — a decoded
entry need not carry a stream id, `streamID` is optional. -/
theorem c9_counterexample :
    decodeTeardownRequest (.dict [("type", .integer 96)]) =
      .ok { id := none, ty := 96 }
  ∧ (TeardownRequest.mk none 96).id = none :=
  ⟨rfl, rfl⟩

/-- C9 (amended): decoding a `Teardown` yields an optional entry list
where absence of the `streams` key decodes to `none`, distinct from a
present (possibly empty) list; every decoded entry carries a stream type
read from its `type` key, and an optional stream id. -/
theorem c9_teardown_decode :
    (∀ d, plGet d "streams" = none →
      decodeTeardown (.dict d) = .ok { requests := none })
  ∧ decodeTeardown (.dict [("streams", .array [])]) = .ok { requests := some [] }
  ∧ ({ requests := none } : Teardown) ≠ { requests := some [] }
  ∧ (∀ d r, decodeTeardownRequest (.dict d) = .ok r → plGet d "type" ≠ none) := by
  refine ⟨?_, rfl, by simp, ?_⟩
  · intro d h
    simp [decodeTeardown, h]
  · intro d r h hnone
    simp only [decodeTeardownRequest, decodeNatField, hnone] at h
    cases hio : decodeOptNatField d "streamID" (2 ^ 64) with
    | error e =>
      rw [hio, except_bind_error] at h
      exact Except.noConfusion h
    | ok i0 =>
      rw [hio, except_bind_ok, except_bind_error] at h
      exact Except.noConfusion h

/-- Witness for C9 (amended): the hypothesis-bearing conjuncts evaluated
at concrete dictionaries. -/
theorem c9_teardown_decode_witness :
    decodeTeardown (.dict [("x", .boolean true)]) = .ok { requests := none }
  ∧ plGet [("type", .integer 96)] "type" ≠ none :=
  ⟨c9_teardown_decode.1 [("x", .boolean true)] rfl,
   c9_teardown_decode.2.2.2 [("type", .integer 96)] { id := none, ty := 96 } rfl⟩

theorem readExact_append (xs rest : List Nat) :
    readExact xs.length (xs ++ rest) = some (xs, rest) := by
  unfold readExact
  rw [if_pos (by simp)]
  rw [List.take_left, List.drop_left]

theorem readExact_of_length {n : Nat} (xs rest : List Nat) (h : xs.length = n) :
    readExact n (xs ++ rest) = some (xs, rest) := by
  subst h
  exact readExact_append xs rest

theorem readExact_length {n : Nat} {s : List Nat} {p : List Nat × List Nat}
    (h : readExact n s = some p) : p.1.length = n := by
  unfold readExact at h
  split at h
  · cases h
    simp only [List.length_take]
    omega
  · exact Option.noConfusion h

/-- On a well-framed buffered-audio frame — length prefix `b0 b1`, RTP
bytes of length `L - 2 - 24`, a 16-byte tag and an 8-byte nonce suffix —
the processor step reduces to the cipher call with nonce
`0 0 0 0 ++ suffix`, AAD `rtp[4..12]` and ciphertext `rtp[headerLen..]`,
dropping the packet on authentication failure and delivering the
header plus plaintext on success. -/
theorem audioBufferedStep_wellFramed (headerLen : Nat) (c : AudioBufferedCipher)
    (b0 b1 : Nat) (rtp tag n8 rest : List Nat)
    (hL : rtp.length = b0 * 256 + b1 - 2 - 24)
    (htag : tag.length = 16) (hn8 : n8.length = 8)
    (hguard : headerLen + AudioPacket.TRAILER_LEN ≤ b0 * 256 + b1 - 2)
    (hhdr : 12 ≤ headerLen) :
    audioBufferedStep headerLen c (b0 :: b1 :: (rtp ++ (tag ++ (n8 ++ rest)))) =
      match c.openInPlace (List.replicate 4 0 ++ n8) ((rtp.drop 4).take 8) tag
          (rtp.drop headerLen) with
      | none => .ok (none, rest)
      | some dec => .ok (some { rtp := rtp.take headerLen ++ dec }, rest) := by
  have h24 : AudioPacket.TRAILER_LEN = 24 := rfl
  rw [h24] at hguard
  have hg1 : ¬ (b0 * 256 + b1 - 2 < headerLen + 24) := by omega
  have hg2 : ¬ (b0 * 256 + b1 - 2 < 24) := by omega
  have hg3 : ¬ (rtp.length < 4 + 8) := by omega
  have hg3a : ¬ (rtp.length < 12) := by omega
  have hg4 : ¬ (rtp.length < headerLen) := by omega
  simp only [audioBufferedStep, readU16BE, AudioPacket.TRAILER_LEN,
    AudioBufferedCipher.AAD_LEN, AudioBufferedCipher.TAG_LEN,
    readExact_of_length rtp (tag ++ (n8 ++ rest)) hL,
    readExact_of_length tag (n8 ++ rest) htag,
    readExact_of_length n8 rest hn8,
    hg1, hg2, hg3, hg3a, hg4, if_false, ite_false]

/-- C3: a buffered-audio frame whose 2-byte big-endian length prefix `L`
satisfies `L - 2 < headerLen + TRAILER_LEN` (with `L - 2` the saturating
subtraction) makes the processor fail with the malformed-stream error,
terminating the read loop with no packet delivered for that frame. -/
theorem c3_buffered_malformed_frame (headerLen : Nat) (c : AudioBufferedCipher)
    (b0 b1 : Nat) (rest : List Nat) (fuel : Nat)
    (h : b0 * 256 + b1 - 2 < headerLen + AudioPacket.TRAILER_LEN) :
    audioBufferedStep headerLen c (b0 :: b1 :: rest) = .error .malformed
  ∧ audioBufferedLoop headerLen c (fuel + 1) (b0 :: b1 :: rest) =
      ([], some .malformed) := by
  have hstep : audioBufferedStep headerLen c (b0 :: b1 :: rest) = .error .malformed := by
    simp only [audioBufferedStep, readU16BE]
    rw [if_pos h]
  exact ⟨hstep, by simp [audioBufferedLoop, hstep]⟩

/-- Witness for C3: a frame with length prefix 0 (saturating to 0) is
rejected as malformed with nothing delivered. -/
theorem c3_buffered_malformed_frame_witness :
    audioBufferedStep 12 idBufferedCipher [0, 0] = .error .malformed
  ∧ audioBufferedLoop 12 idBufferedCipher 1 [0, 0] = ([], some .malformed) :=
  c3_buffered_malformed_frame 12 idBufferedCipher 0 0 [] 0 (by decide)

/-- C4: on a well-framed buffered-audio frame, an authentication failure
of `open_in_place` drops the packet — the step delivers nothing, returns
to the loop, and the loop continues with the next frame; on success
exactly one packet is delivered for the frame and the loop continues. -/
theorem c4_buffered_auth_policy (headerLen : Nat) (c : AudioBufferedCipher)
    (b0 b1 : Nat) (rtp tag n8 rest : List Nat) (fuel : Nat)
    (hL : rtp.length = b0 * 256 + b1 - 2 - 24)
    (htag : tag.length = 16) (hn8 : n8.length = 8)
    (hguard : headerLen + AudioPacket.TRAILER_LEN ≤ b0 * 256 + b1 - 2)
    (hhdr : 12 ≤ headerLen) :
    (c.openInPlace (List.replicate 4 0 ++ n8) ((rtp.drop 4).take 8) tag
        (rtp.drop headerLen) = none →
      audioBufferedStep headerLen c (b0 :: b1 :: (rtp ++ (tag ++ (n8 ++ rest)))) =
        .ok (none, rest)
      ∧ audioBufferedLoop headerLen c (fuel + 1)
          (b0 :: b1 :: (rtp ++ (tag ++ (n8 ++ rest)))) =
          audioBufferedLoop headerLen c fuel rest)
  ∧ (∀ dec, c.openInPlace (List.replicate 4 0 ++ n8) ((rtp.drop 4).take 8) tag
        (rtp.drop headerLen) = some dec →
      audioBufferedStep headerLen c (b0 :: b1 :: (rtp ++ (tag ++ (n8 ++ rest)))) =
        .ok (some { rtp := rtp.take headerLen ++ dec }, rest)
      ∧ audioBufferedLoop headerLen c (fuel + 1)
          (b0 :: b1 :: (rtp ++ (tag ++ (n8 ++ rest)))) =
          ({ rtp := rtp.take headerLen ++ dec } ::
            (audioBufferedLoop headerLen c fuel rest).1,
           (audioBufferedLoop headerLen c fuel rest).2)) := by
  have hwf := audioBufferedStep_wellFramed headerLen c b0 b1 rtp tag n8 rest
    hL htag hn8 hguard hhdr
  constructor
  · intro hc
    rw [hc] at hwf
    exact ⟨hwf, by simp [audioBufferedLoop, hwf]⟩
  · intro dec hc
    rw [hc] at hwf
    exact ⟨hwf, by simp [audioBufferedLoop, hwf]⟩

/-- Witness for C4: a concrete well-framed frame (length prefix 38, 12
RTP bytes, zero tag and nonce suffix) under a cipher that never
authenticates is dropped, and under a cipher that always authenticates
delivers exactly one packet. -/
theorem c4_buffered_auth_policy_witness :
    audioBufferedStep 12 failBufferedCipher
        (0 :: 38 :: (List.replicate 12 0 ++ (List.replicate 16 0 ++
          (List.replicate 8 0 ++ ([] : List Nat))))) = .ok (none, [])
  ∧ audioBufferedStep 12 idBufferedCipher
        (0 :: 38 :: (List.replicate 12 0 ++ (List.replicate 16 0 ++
          (List.replicate 8 0 ++ ([] : List Nat))))) =
      .ok (some { rtp := List.replicate 12 0 }, []) := by
  constructor
  · exact ((c4_buffered_auth_policy 12 failBufferedCipher 0 38
      (List.replicate 12 0) (List.replicate 16 0) (List.replicate 8 0) [] 0
      (by decide) (by decide) (by decide) (by decide) (by decide)).1 rfl).1
  · have h := ((c4_buffered_auth_policy 12 idBufferedCipher 0 38
      (List.replicate 12 0) (List.replicate 16 0) (List.replicate 8 0) [] 0
      (by decide) (by decide) (by decide) (by decide) (by decide)).2
      ((List.replicate 12 0).drop 12) rfl).1
    simpa using h

/-- C5: on a well-framed buffered-audio frame the processor reads the RTP
bytes, then the 16-byte tag, then 8 wire bytes; the cipher is invoked
with the 12-byte nonce whose first 4 bytes are zero and whose last 8
bytes are the wire bytes, with AAD equal to the 8 bytes at offset 4 of
the just-read RTP buffer, and with ciphertext region exactly the RTP
bytes after the header — the delivered packet keeps the header bytes
unchanged and replaces only the region after the header. -/
theorem c5_buffered_nonce_aad_construction (headerLen : Nat)
    (c : AudioBufferedCipher) (b0 b1 : Nat) (rtp tag n8 rest : List Nat)
    (hL : rtp.length = b0 * 256 + b1 - 2 - 24)
    (htag : tag.length = 16) (hn8 : n8.length = 8)
    (hguard : headerLen + AudioPacket.TRAILER_LEN ≤ b0 * 256 + b1 - 2)
    (hhdr : 12 ≤ headerLen) :
    audioBufferedStep headerLen c (b0 :: b1 :: (rtp ++ (tag ++ (n8 ++ rest)))) =
      match c.openInPlace (List.replicate 4 0 ++ n8) ((rtp.drop 4).take 8) tag
          (rtp.drop headerLen) with
      | none => .ok (none, rest)
      | some dec => .ok (some { rtp := rtp.take headerLen ++ dec }, rest) :=
  audioBufferedStep_wellFramed headerLen c b0 b1 rtp tag n8 rest
    hL htag hn8 hguard hhdr

/-- Witness for C5: the concrete well-framed frame of the C4 witness,
under the always-authenticating cipher. -/
theorem c5_buffered_nonce_aad_construction_witness :
    audioBufferedStep 12 idBufferedCipher
        (0 :: 38 :: (List.replicate 12 0 ++ (List.replicate 16 0 ++
          (List.replicate 8 0 ++ ([] : List Nat))))) =
      .ok (some { rtp := List.replicate 12 0 }, []) := by
  have h := c5_buffered_nonce_aad_construction 12 idBufferedCipher 0 38
    (List.replicate 12 0) (List.replicate 16 0) (List.replicate 8 0) []
    (by decide) (by decide) (by decide) (by decide) (by decide)
  simpa [idBufferedCipher] using h

/-- C10: once the length guard of the buffered-audio processor passes,
no later operation can fault: for every header length of at least 12
(with the trailer fixed at 24), every cipher and every input byte
stream, the step never reaches the `crash` outcome — the subtraction
`pkt_len - 24` cannot underflow and the AAD and decryption slices are in
bounds. -/
theorem c10_buffered_no_crash (headerLen : Nat) (c : AudioBufferedCipher)
    (s : List Nat) (hhdr : 12 ≤ headerLen) :
    audioBufferedStep headerLen c s ≠ .error .crash := by
  intro h
  simp only [audioBufferedStep, AudioPacket.TRAILER_LEN,
    AudioBufferedCipher.AAD_LEN, AudioBufferedCipher.TAG_LEN] at h
  split at h
  · simp at h
  · split at h
    · simp at h
    · split at h
      · omega
      · split at h
        · simp at h
        · rename_i rtp s2 heq2
          have hlen : rtp.length = _ := readExact_length heq2
          split at h
          · omega
          · split at h
            · simp at h
            · split at h
              · simp at h
              · split at h
                · omega
                · split at h
                  · simp at h
                  · simp at h

/-- Witness for C10: the crash-freedom theorem evaluated at header
length 12 on an empty input stream. -/
theorem c10_buffered_no_crash_witness :
    audioBufferedStep 12 idBufferedCipher [] ≠ .error .crash :=
  c10_buffered_no_crash 12 idBufferedCipher [] (by decide)

/-- C7: for every received UDP datagram, the realtime-audio processor
drops a datagram shorter than the header length (nothing delivered, the
loop continues), and otherwise delivers exactly one packet whose bytes
are the datagram with only the bytes after the header decrypted in
place: the header bytes are unchanged, and the packet length equals the
datagram length. -/
theorem c7_realtime_datagram (headerLen : Nat) (c : AudioRealtimeCipher)
    (d : List Nat) (ds : List (List Nat)) :
    (d.length < headerLen →
      audioRealtimeStep headerLen c d = none
      ∧ audioRealtimeLoop headerLen c (d :: ds) = audioRealtimeLoop headerLen c ds)
  ∧ (headerLen ≤ d.length →
      audioRealtimeStep headerLen c d =
        some { rtp := d.take headerLen ++ c.decrypt (d.drop headerLen) }
      ∧ (d.take headerLen ++ c.decrypt (d.drop headerLen)).length = d.length
      ∧ audioRealtimeLoop headerLen c (d :: ds) =
          { rtp := d.take headerLen ++ c.decrypt (d.drop headerLen) } ::
            audioRealtimeLoop headerLen c ds) := by
  constructor
  · intro h
    have hstep : audioRealtimeStep headerLen c d = none := by
      simp [audioRealtimeStep, h]
    exact ⟨hstep, by simp [audioRealtimeLoop, hstep]⟩
  · intro h
    have hstep : audioRealtimeStep headerLen c d =
        some { rtp := d.take headerLen ++ c.decrypt (d.drop headerLen) } := by
      simp [audioRealtimeStep, Nat.not_lt.mpr h]
    refine ⟨hstep, ?_, by simp [audioRealtimeLoop, hstep]⟩
    simp only [List.length_append, List.length_take, c.length_decrypt,
      List.length_drop]
    omega

/-- Witness for C7: a 1-byte datagram is dropped under header length 12;
a 2-byte datagram under header length 1 is delivered as one packet whose
header byte is unchanged. -/
theorem c7_realtime_datagram_witness :
    audioRealtimeStep 12 idRealtimeCipher [0] = none
  ∧ audioRealtimeStep 1 idRealtimeCipher [7, 8] =
      some { rtp := [7, 8].take 1 ++ idRealtimeCipher.decrypt ([7, 8].drop 1) } :=
  ⟨((c7_realtime_datagram 12 idRealtimeCipher [0] []).1 (by decide)).1,
   ((c7_realtime_datagram 1 idRealtimeCipher [7, 8] []).2 (by decide)).1⟩

/-- C6: the video processor reads the payload length as `u32` LE, the
kind code as `u16` LE (1 is AvcC, 0 and 4096 are payload, anything else
`Other` with the code), a reserved `u16` LE, the timestamp as `u64` LE,
discards 112 reserved bytes, then reads exactly `payload_len` payload
bytes; only payload-kind packets are decrypted, while AvcC and `Other`
packets are delivered with the payload identical to the wire bytes. The
last conjunct checks the spec's end-to-end example: the all-zero header
with `payload_len = 4` followed by 4 payload bytes yields
`VideoPacket { kind := Payload, timestamp := 0 }` with the decrypted
payload and nothing left unread. -/
theorem c6_video_framing {σ : Type} (c : VideoCipher σ) (st : σ) :
    (packetKindOfCode 1 = .avcc ∧ packetKindOfCode 0 = .payload
      ∧ packetKindOfCode 4096 = .payload
      ∧ ∀ v, v ≠ 1 → v ≠ 0 → v ≠ 4096 → packetKindOfCode v = .other v)
  ∧ (∀ (l0 l1 l2 l3 k0 k1 r0 r1 t0 t1 t2 t3 t4 t5 t6 t7 : Nat)
      (pad payload rest : List Nat), pad.length = 112 →
      payload.length = l0 + 256 * (l1 + 256 * (l2 + 256 * l3)) →
      (packetKindOfCode (k0 + 256 * k1) = .payload →
        videoStep c st (l0 :: l1 :: l2 :: l3 :: k0 :: k1 :: r0 :: r1 ::
            t0 :: t1 :: t2 :: t3 :: t4 :: t5 :: t6 :: t7 ::
            (pad ++ (payload ++ rest))) =
          .ok ({ kind := .payload,
                 timestamp := t0 + 256 * (t1 + 256 * (t2 + 256 * (t3 + 256 *
                   (t4 + 256 * (t5 + 256 * (t6 + 256 * t7)))))),
                 payload := (c.decrypt st payload).2 },
               (c.decrypt st payload).1, rest))
      ∧ (packetKindOfCode (k0 + 256 * k1) ≠ .payload →
        videoStep c st (l0 :: l1 :: l2 :: l3 :: k0 :: k1 :: r0 :: r1 ::
            t0 :: t1 :: t2 :: t3 :: t4 :: t5 :: t6 :: t7 ::
            (pad ++ (payload ++ rest))) =
          .ok ({ kind := packetKindOfCode (k0 + 256 * k1),
                 timestamp := t0 + 256 * (t1 + 256 * (t2 + 256 * (t3 + 256 *
                   (t4 + 256 * (t5 + 256 * (t6 + 256 * t7)))))),
                 payload := payload },
               st, rest)))
  ∧ (∀ payload : List Nat, payload.length = 4 →
      videoStep c st (4 :: 0 :: 0 :: 0 :: 0 :: 0 :: 0 :: 0 ::
          0 :: 0 :: 0 :: 0 :: 0 :: 0 :: 0 :: 0 ::
          (List.replicate 112 0 ++ (payload ++ []))) =
        .ok ({ kind := .payload, timestamp := 0,
               payload := (c.decrypt st payload).2 },
             (c.decrypt st payload).1, [])) := by
  have hgen : ∀ (l0 l1 l2 l3 k0 k1 r0 r1 t0 t1 t2 t3 t4 t5 t6 t7 : Nat)
      (pad payload rest : List Nat), pad.length = 112 →
      payload.length = l0 + 256 * (l1 + 256 * (l2 + 256 * l3)) →
      videoStep c st (l0 :: l1 :: l2 :: l3 :: k0 :: k1 :: r0 :: r1 ::
          t0 :: t1 :: t2 :: t3 :: t4 :: t5 :: t6 :: t7 ::
          (pad ++ (payload ++ rest))) =
        (if packetKindOfCode (k0 + 256 * k1) = .payload then
          .ok ({ kind := packetKindOfCode (k0 + 256 * k1),
                 timestamp := t0 + 256 * (t1 + 256 * (t2 + 256 * (t3 + 256 *
                   (t4 + 256 * (t5 + 256 * (t6 + 256 * t7)))))),
                 payload := (c.decrypt st payload).2 },
               (c.decrypt st payload).1, rest)
        else
          .ok ({ kind := packetKindOfCode (k0 + 256 * k1),
                 timestamp := t0 + 256 * (t1 + 256 * (t2 + 256 * (t3 + 256 *
                   (t4 + 256 * (t5 + 256 * (t6 + 256 * t7)))))),
                 payload := payload },
               st, rest)) := by
    intro l0 l1 l2 l3 k0 k1 r0 r1 t0 t1 t2 t3 t4 t5 t6 t7 pad payload rest hpad hpl
    simp only [videoStep, readU32LE, readU16LE, readU64LE,
      readExact_of_length pad (payload ++ rest) hpad,
      readExact_of_length payload rest hpl]
  refine ⟨⟨rfl, rfl, rfl, ?_⟩, ?_, ?_⟩
  · intro v h1 h0 h4096
    simp [packetKindOfCode, h1, h0, h4096]
  · intro l0 l1 l2 l3 k0 k1 r0 r1 t0 t1 t2 t3 t4 t5 t6 t7 pad payload rest hpad hpl
    have h := hgen l0 l1 l2 l3 k0 k1 r0 r1 t0 t1 t2 t3 t4 t5 t6 t7
      pad payload rest hpad hpl
    constructor
    · intro hk
      rw [h, if_pos hk, hk]
    · intro hk
      rw [h, if_neg hk]
  · intro payload hpl
    have h := hgen 4 0 0 0 0 0 0 0 0 0 0 0 0 0 0 0
      (List.replicate 112 0) payload [] (by simp) (by simpa using hpl)
    simpa [packetKindOfCode] using h

/-- Witness for C6: the end-to-end example evaluated with a concrete
4-byte payload and the identity video cipher. -/
theorem c6_video_framing_witness :
    videoStep idVideoCipher () (4 :: 0 :: 0 :: 0 :: 0 :: 0 :: 0 :: 0 ::
        0 :: 0 :: 0 :: 0 :: 0 :: 0 :: 0 :: 0 ::
        (List.replicate 112 0 ++ ([9, 9, 9, 9] ++ []))) =
      .ok ({ kind := .payload, timestamp := 0,
             payload := (idVideoCipher.decrypt () [9, 9, 9, 9]).2 },
           (idVideoCipher.decrypt () [9, 9, 9, 9]).1, []) :=
  (c6_video_framing idVideoCipher ()).2.2 [9, 9, 9, 9] (by decide)

end Rairplay
